import Mathlib

/-!
Shallow embedding of the serde-constant crate (src/lib.rs): zero-size
constant-valued wrapper types with a Serialize impl that emits the constant
and a Deserialize impl that validates the observed value against it.

Machine integers are modelled as Int/Nat; Rust `as` casts that can truncate
are modelled by explicit modular reduction (castI64, castU64); value-preserving
widening casts (i8..i64 -> i128, u8..u64 -> i128/u128) are the identity.
The zero-size marker value returned on success is modelled as `Unit`
(each `ConstX<V>` has exactly one inhabitant).
-/

namespace SerdeConstant

/-- serde's `Unexpected` payload carried by `de::Error::invalid_value`:
the kind and value the decoder observed. `Signed` carries an i64, `Unsigned` a u64. -/
inductive Unexpected where
  | bool (b : Bool)
  | signed (v : Int)
  | unsigned (v : Nat)
  | char (c : Char)
  | str (s : List Char)
  deriving DecidableEq, Repr

/-- The error constructions used by the crate: `invalid_value(unexp, exp)` and
`invalid_length(len, exp)`, plus `invalid_type` produced by serde's default
visitor methods for kinds a visitor does not handle. `exp` is the string the
visitor's `expecting` writes. -/
inductive DeError where
  | invalidValue (unexp : Unexpected) (exp : String)
  | invalidLength (len : Nat) (exp : String)
  | invalidType (unexp : Unexpected) (exp : String)
  deriving DecidableEq, Repr

instance {α β : Type} [DecidableEq α] [DecidableEq β] : DecidableEq (Except α β) := fun x y =>
  match x, y with
  | .error a, .error b => decidable_of_iff (a = b) (by simp)
  | .error _, .ok _ => isFalse (by simp)
  | .ok _, .error _ => isFalse (by simp)
  | .ok a, .ok b => decidable_of_iff (a = b) (by simp)

/-- Rust `x as i64` from a wider signed integer: truncate to the low 64 bits,
reinterpreted as two's-complement signed (identity on values in i64 range). -/
def castI64 (v : Int) : Int := (v + 2 ^ 63) % 2 ^ 64 - 2 ^ 63

/-- Rust `x as u64` from u128: truncate to the low 64 bits. -/
def castU64 (v : Nat) : Nat := v % 2 ^ 64

/-- An integer value as presented by the decoder to a visitor: one concrete
width (8/16/32/64/128) and signedness. `sgn w v` is a call of `visit_i{w}`
with value `v`, `uns w v` a call of `visit_u{w}` with value `v`. -/
inductive IntObserved where
  | sgn (w : Nat) (v : Int)
  | uns (w : Nat) (v : Nat)
  deriving DecidableEq, Repr

/-- The numeric value of an observation, for stating cross-representation
equality. -/
def IntObserved.toInt : IntObserved → Int
  | .sgn _ v => v
  | .uns _ v => v

/-- `expecting` of the `declare_int` visitors (src/lib.rs:128-130):
writes the decimal rendering of the constant `V`. -/
def intExpecting (V : Int) : String := toString V

/-- `visit_i128` of the `declare_int` visitors (src/lib.rs:155-164): succeed
with the marker iff `v == V as i128`; otherwise `invalid_value` carrying
`Unexpected::Signed(V as i64)`. (`V as i128` is value-preserving for every
signed constant type, hence the bare `V` in the comparison.) -/
def ConstIntVisitor.visit_i128 (V : Int) (v : Int) : Except DeError Unit :=
  if v = V then .ok ()
  else .error (.invalidValue (.signed (castI64 V)) (intExpecting V))

/-- `visit_u128` of the `declare_int` visitors (src/lib.rs:189-197):
`i128::try_from(v)` succeeds iff `v <= i128::MAX = 2^127 - 1`, then delegates
to `visit_i128`; on overflow, `invalid_value` carrying
`Unexpected::Unsigned(v as u64)`. -/
def ConstIntVisitor.visit_u128 (V : Int) (v : Nat) : Except DeError Unit :=
  if v ≤ 2 ^ 127 - 1 then ConstIntVisitor.visit_i128 V (v : Int)
  else .error (.invalidValue (.unsigned (castU64 v)) (intExpecting V))

/-- Dispatch of one observed integer to the `declare_int` visitor:
`visit_i8/16/32/64` forward `v as i128` (value-preserving) to `visit_i128`
(src/lib.rs:131-154), `visit_u8/16/32/64` likewise (src/lib.rs:165-188),
and `visit_u128` takes the fallible `try_from` path (src/lib.rs:189-197). -/
def ConstIntVisitor.visit (V : Int) : IntObserved → Except DeError Unit
  | .sgn _ v => ConstIntVisitor.visit_i128 V v
  | .uns w v =>
      if w = 128 then ConstIntVisitor.visit_u128 V v
      else ConstIntVisitor.visit_i128 V (v : Int)

/-- `expecting` of the `declare_uint` visitors (src/lib.rs:242-244). -/
def uintExpecting (V : Nat) : String := toString V

/-- `visit_u128` of the `declare_uint` visitors (src/lib.rs:303-312): succeed
with the marker iff `v == V as u128`; otherwise `invalid_value` carrying
`Unexpected::Unsigned(v as u64)`. -/
def ConstUintVisitor.visit_u128 (V : Nat) (v : Nat) : Except DeError Unit :=
  if v = V then .ok ()
  else .error (.invalidValue (.unsigned (castU64 v)) (uintExpecting V))

/-- `visit_i128` of the `declare_uint` visitors (src/lib.rs:269-278): a
negative observation fails with `invalid_value` carrying
`Unexpected::Signed(v as i64)`; otherwise delegate to `visit_u128` on
`v as u128` (value-preserving for nonnegative `v`). -/
def ConstUintVisitor.visit_i128 (V : Nat) (v : Int) : Except DeError Unit :=
  if v < 0 then .error (.invalidValue (.signed (castI64 v)) (uintExpecting V))
  else ConstUintVisitor.visit_u128 V v.toNat

/-- Dispatch of one observed integer to the `declare_uint` visitor:
`visit_i8/16/32/64` forward `v as i128` to `visit_i128` (src/lib.rs:245-268),
`visit_u8/16/32/64` forward `v as u128` to `visit_u128` (src/lib.rs:279-302). -/
def ConstUintVisitor.visit (V : Nat) : IntObserved → Except DeError Unit
  | .sgn _ v => ConstUintVisitor.visit_i128 V v
  | .uns _ v => ConstUintVisitor.visit_u128 V v

/-- `expecting` of `ConstBoolVisitor` (src/lib.rs:82-84). -/
def boolExpecting (V : Bool) : String := toString V

/-- `ConstBoolVisitor::visit_bool` (src/lib.rs:85-94): succeed with the marker
iff `v == V`; otherwise `invalid_value` carrying `Unexpected::Bool(v)`. -/
def ConstBoolVisitor.visit_bool (V : Bool) (v : Bool) : Except DeError Unit :=
  if v = V then .ok ()
  else .error (.invalidValue (.bool v) (boolExpecting V))

/-- `expecting` of `ConstCharVisitor` (src/lib.rs:354-356): the constant
surrounded by single quotes. -/
def charExpecting (V : Char) : String := "'" ++ String.singleton V ++ "'"

/-- `ConstCharVisitor::visit_char` (src/lib.rs:357-366): succeed with the
marker iff `v == V`; otherwise `invalid_value` carrying `Unexpected::Char(v)`. -/
def ConstCharVisitor.visit_char (V : Char) (v : Char) : Except DeError Unit :=
  if v = V then .ok ()
  else .error (.invalidValue (.char v) (charExpecting V))

/-- `ConstCharVisitor::visit_str` (src/lib.rs:367-378): no first character
fails with `invalid_length(0)`; a remaining second character fails with
`invalid_length(2)`; otherwise compare the single character via `visit_char`. -/
def ConstCharVisitor.visit_str (V : Char) (v : List Char) : Except DeError Unit :=
  match v with
  | [] => .error (.invalidLength 0 (charExpecting V))
  | ch :: rest =>
      if rest.isEmpty then ConstCharVisitor.visit_char V ch
      else .error (.invalidLength 2 (charExpecting V))

/-- One primitive value on the wire, as recorded by the output sink:
the kinds the crate's Serialize impls can emit plus text (for contrast with
the character kind). -/
inductive Wire where
  | bool (b : Bool)
  | sgn (w : Nat) (v : Int)
  | uns (w : Nat) (v : Nat)
  | char (c : Char)
  | str (s : List Char)
  deriving DecidableEq, Repr

/-- A serde `Serializer`, restricted to the methods this crate can invoke:
one callback per primitive kind, each may fail only with the sink's own
error type `ε`. -/
structure Serializer (ε σ : Type) where
  serialize_bool : Bool → Except ε σ
  serialize_int : Nat → Int → Except ε σ
  serialize_uint : Nat → Nat → Except ε σ
  serialize_char : Char → Except ε σ
  serialize_str : List Char → Except ε σ

/-- `ConstBool::serialize` (src/lib.rs:60-67): `serializer.serialize_bool(V)`. -/
def ConstBool.serialize {ε σ : Type} (V : Bool) (s : Serializer ε σ) : Except ε σ :=
  s.serialize_bool V

/-- `declare_int` Serialize impl (src/lib.rs:106-113):
`serializer.serialize_i{w}(V)` for the constant's width `w`. -/
def ConstInt.serialize {ε σ : Type} (w : Nat) (V : Int) (s : Serializer ε σ) : Except ε σ :=
  s.serialize_int w V

/-- `declare_uint` Serialize impl (src/lib.rs:220-227):
`serializer.serialize_u{w}(V)` for the constant's width `w`. -/
def ConstUint.serialize {ε σ : Type} (w : Nat) (V : Nat) (s : Serializer ε σ) : Except ε σ :=
  s.serialize_uint w V

/-- `ConstChar::serialize` (src/lib.rs:332-339): `serializer.serialize_char(V)`. -/
def ConstChar.serialize {ε σ : Type} (V : Char) (s : Serializer ε σ) : Except ε σ :=
  s.serialize_char V

/-- The canonical recording sink: never fails (`ε := Empty`) and records
exactly the one primitive value each method was called with. -/
def wireSerializer : Serializer Empty Wire where
  serialize_bool b := .ok (.bool b)
  serialize_int w v := .ok (.sgn w v)
  serialize_uint w v := .ok (.uns w v)
  serialize_char c := .ok (.char c)
  serialize_str s := .ok (.str s)

/-- `ConstBool::deserialize` (src/lib.rs:69-76) driven by a self-describing
decoder holding one wire value: the decoder calls the matching visitor method;
kinds `ConstBoolVisitor` does not implement hit serde's default methods, which
fail with `invalid_type`. -/
def ConstBool.deserialize (V : Bool) : Wire → Except DeError Unit
  | .bool b => ConstBoolVisitor.visit_bool V b
  | .sgn _ v => .error (.invalidType (.signed (castI64 v)) (boolExpecting V))
  | .uns _ v => .error (.invalidType (.unsigned (castU64 v)) (boolExpecting V))
  | .char c => .error (.invalidType (.char c) (boolExpecting V))
  | .str s => .error (.invalidType (.str s) (boolExpecting V))

/-- `declare_int` Deserialize impl (src/lib.rs:115-122) driven by a
self-describing decoder holding one wire value. -/
def ConstInt.deserialize (V : Int) : Wire → Except DeError Unit
  | .sgn w v => ConstIntVisitor.visit V (.sgn w v)
  | .uns w v => ConstIntVisitor.visit V (.uns w v)
  | .bool b => .error (.invalidType (.bool b) (intExpecting V))
  | .char c => .error (.invalidType (.char c) (intExpecting V))
  | .str s => .error (.invalidType (.str s) (intExpecting V))

/-- `declare_uint` Deserialize impl (src/lib.rs:229-236) driven by a
self-describing decoder holding one wire value. -/
def ConstUint.deserialize (V : Nat) : Wire → Except DeError Unit
  | .sgn w v => ConstUintVisitor.visit V (.sgn w v)
  | .uns w v => ConstUintVisitor.visit V (.uns w v)
  | .bool b => .error (.invalidType (.bool b) (uintExpecting V))
  | .char c => .error (.invalidType (.char c) (uintExpecting V))
  | .str s => .error (.invalidType (.str s) (uintExpecting V))

/-- `ConstChar::deserialize` (src/lib.rs:341-348) driven by a self-describing
decoder holding one wire value: `ConstCharVisitor` implements `visit_char`
and `visit_str`. -/
def ConstChar.deserialize (V : Char) : Wire → Except DeError Unit
  | .char c => ConstCharVisitor.visit_char V c
  | .str s => ConstCharVisitor.visit_str V s
  | .bool b => .error (.invalidType (.bool b) (charExpecting V))
  | .sgn _ v => .error (.invalidType (.signed (castI64 v)) (charExpecting V))
  | .uns _ v => .error (.invalidType (.unsigned (castU64 v)) (charExpecting V))

/-! ## Helper lemmas -/

/-- The signed visitors' `visit_i128` succeeds exactly on the constant. -/
theorem intVisit_i128_ok_iff (V v : Int) :
    ConstIntVisitor.visit_i128 V v = .ok () ↔ v = V := by
  unfold ConstIntVisitor.visit_i128
  split <;> simp_all

/-- The unsigned visitors' `visit_u128` succeeds exactly on the constant. -/
theorem uintVisit_u128_ok_iff (V v : Nat) :
    ConstUintVisitor.visit_u128 V v = .ok () ↔ v = V := by
  unfold ConstUintVisitor.visit_u128
  split <;> simp_all

/-- Validation by a signed-constant visitor succeeds exactly on observations
that are numerically equal to the constant, for any constant representable in
a signed 128-bit type. -/
theorem intVisit_ok_iff (V : Int) (hV : V < 2 ^ 127) (o : IntObserved) :
    ConstIntVisitor.visit V o = .ok () ↔ o.toInt = V := by
  cases o with
  | sgn w v =>
      simpa [ConstIntVisitor.visit, IntObserved.toInt] using intVisit_i128_ok_iff V v
  | uns w v =>
      simp only [ConstIntVisitor.visit, IntObserved.toInt]
      split
      · unfold ConstIntVisitor.visit_u128
        split
        · simpa using intVisit_i128_ok_iff V (v : Int)
        · rename_i hbig
          have h1 : (2 : Int) ^ 127 ≤ (v : Int) := by
            have h0 : 2 ^ 127 ≤ v := by omega
            exact_mod_cast h0
          constructor
          · intro hc
            exact absurd hc (by simp)
          · intro hc
            rw [hc] at h1
            exact absurd h1 (not_le.mpr hV)
      · simpa using intVisit_i128_ok_iff V (v : Int)

/-- Validation by an unsigned-constant visitor succeeds exactly on
observations that are numerically equal to the constant. -/
theorem uintVisit_ok_iff (V : Nat) (o : IntObserved) :
    ConstUintVisitor.visit V o = .ok () ↔ o.toInt = (V : Int) := by
  cases o with
  | sgn w v =>
      simp only [ConstUintVisitor.visit, ConstUintVisitor.visit_i128, IntObserved.toInt]
      split
      · rename_i hneg
        constructor
        · intro hc
          exact absurd hc (by simp)
        · intro hc
          omega
      · rw [uintVisit_u128_ok_iff]
        omega
  | uns w v =>
      simp only [ConstUintVisitor.visit, IntObserved.toInt]
      rw [uintVisit_u128_ok_iff]
      omega

/-- The data of the character expecting string is the constant between
single quotes. -/
theorem charExpecting_data (V : Char) : (charExpecting V).data = ['\'', V, '\''] := rfl

/-! ## Claims -/

/-- C1: the claim that the mismatch error's observed field always reflects the
original observed value is false on the signed-constant path: with constant 2
and observed signed value 1, the error carries `Unexpected::Signed(2)` — the
constant `V as i64` (src/lib.rs:162) — not the observed value 1. -/
theorem C1_observed_field_holds_constant :
    ConstIntVisitor.visit 2 (.sgn 64 1)
      = .error (.invalidValue (.signed 2) (intExpecting 2)) ∧
    (1 : Int) ≠ 2 :=
  ⟨by decide, by decide⟩

/-- C2: for a signed constant representable in i128 and for any unsigned
constant, validation of an observation of any width and signedness succeeds
(returning the zero-size marker) exactly when the observed value is
numerically equal to the constant. -/
theorem C2_cross_representation_equality :
    (∀ (V : Int) (o : IntObserved), -(2 ^ 127) ≤ V → V < 2 ^ 127 →
        (ConstIntVisitor.visit V o = .ok () ↔ o.toInt = V)) ∧
    (∀ (V : Nat) (o : IntObserved),
        ConstUintVisitor.visit V o = .ok () ↔ o.toInt = (V : Int)) :=
  ⟨fun V o _ hV2 => intVisit_ok_iff V hV2 o, fun V o => uintVisit_ok_iff V o⟩

set_option maxRecDepth 40000 in
theorem C2_witness :
    ConstIntVisitor.visit 2 (.uns 32 2) = .ok () ∧
    ConstUintVisitor.visit 5 (.sgn 8 5) = .ok () :=
  ⟨(C2_cross_representation_equality.1 2 (.uns 32 2) (by decide) (by decide)).mpr (by decide),
   (C2_cross_representation_equality.2 5 (.sgn 8 5)).mpr (by decide)⟩

/-- C3: for a signed constant, an observed u128 value above the signed
128-bit maximum is numerically unequal to the constant and is rejected with a
mismatch error, and the signed-constant validator never accepts an
observation whose value differs from the constant. -/
theorem C3_unsigned_overflow_rejected (V : Int) (v : Nat)
    (hV : V < 2 ^ 127) (hv : 2 ^ 127 ≤ v) :
    (v : Int) ≠ V ∧
    ConstIntVisitor.visit V (.uns 128 v)
      = .error (.invalidValue (.unsigned (castU64 v)) (intExpecting V)) ∧
    (∀ o : IntObserved, ConstIntVisitor.visit V o = .ok () → o.toInt = V) := by
  refine ⟨?_, ?_, fun o h => (intVisit_ok_iff V hV o).mp h⟩
  · intro hc
    have h1 : (2 : Int) ^ 127 ≤ (v : Int) := by exact_mod_cast hv
    rw [hc] at h1
    exact absurd h1 (not_le.mpr hV)
  · have hgt : ¬ v ≤ 2 ^ 127 - 1 := by omega
    show ConstIntVisitor.visit_u128 V v = _
    unfold ConstIntVisitor.visit_u128
    rw [if_neg hgt]

set_option maxRecDepth 40000 in
theorem C3_witness :
    ((2 ^ 127 : Nat) : Int) ≠ 0 ∧
    ConstIntVisitor.visit 0 (.uns 128 (2 ^ 127))
      = .error (.invalidValue (.unsigned (castU64 (2 ^ 127))) (intExpecting 0)) ∧
    (∀ o : IntObserved, ConstIntVisitor.visit 0 o = .ok () → o.toInt = 0) :=
  C3_unsigned_overflow_rejected 0 (2 ^ 127) (by decide) (le_refl _)

/-- C4: for an unsigned constant of any width, a negative observed signed
value of any width always fails with the mismatch error that reports the
observed (negative) value — it never succeeds and never wraps to a positive
magnitude. -/
theorem C4_negative_observation_fails (V : Nat) (w : Nat) (v : Int) (hv : v < 0) :
    ConstUintVisitor.visit V (.sgn w v)
      = .error (.invalidValue (.signed (castI64 v)) (uintExpecting V)) := by
  simp only [ConstUintVisitor.visit, ConstUintVisitor.visit_i128, if_pos hv]

theorem C4_witness :
    ConstUintVisitor.visit 200 (.sgn 8 (-5))
      = .error (.invalidValue (.signed (castI64 (-5))) (uintExpecting 200)) ∧
    castI64 (-5) = -5 :=
  ⟨C4_negative_observation_fails 200 8 (-5) (by decide), by decide⟩

/-- C5: for every supported wrapper family and constant, serializing through
the recording sink and deserializing the emitted wire value with a decoder
expecting that exact wrapper succeeds and yields the (unique, zero-size)
marker. -/
theorem C5_round_trip :
    (∀ (V : Bool) (x : Wire), ConstBool.serialize V wireSerializer = .ok x →
        ConstBool.deserialize V x = .ok ()) ∧
    (∀ (w : Nat) (V : Int) (x : Wire), ConstInt.serialize w V wireSerializer = .ok x →
        ConstInt.deserialize V x = .ok ()) ∧
    (∀ (w : Nat) (V : Nat) (x : Wire), ConstUint.serialize w V wireSerializer = .ok x →
        ConstUint.deserialize V x = .ok ()) ∧
    (∀ (V : Char) (x : Wire), ConstChar.serialize V wireSerializer = .ok x →
        ConstChar.deserialize V x = .ok ()) := by
  refine ⟨fun V x h => ?_, fun w V x h => ?_, fun w V x h => ?_, fun V x h => ?_⟩
  · obtain rfl : Wire.bool V = x := Except.ok.inj h
    simp [ConstBool.deserialize, ConstBoolVisitor.visit_bool]
  · obtain rfl : Wire.sgn w V = x := Except.ok.inj h
    simp [ConstInt.deserialize, ConstIntVisitor.visit, ConstIntVisitor.visit_i128]
  · obtain rfl : Wire.uns w V = x := Except.ok.inj h
    simp [ConstUint.deserialize, ConstUintVisitor.visit, ConstUintVisitor.visit_u128]
  · obtain rfl : Wire.char V = x := Except.ok.inj h
    simp [ConstChar.deserialize, ConstCharVisitor.visit_char]

theorem C5_witness :
    ConstBool.deserialize true (.bool true) = .ok () ∧
    ConstInt.deserialize 2 (.sgn 64 2) = .ok () ∧
    ConstUint.deserialize 200 (.uns 8 200) = .ok () ∧
    ConstChar.deserialize 'x' (.char 'x') = .ok () :=
  ⟨C5_round_trip.1 true (.bool true) rfl,
   C5_round_trip.2.1 64 2 (.sgn 64 2) rfl,
   C5_round_trip.2.2.1 8 200 (.uns 8 200) rfl,
   C5_round_trip.2.2.2 'x' (.char 'x') rfl⟩

/-- C6: for a character constant, an empty text observation fails with
`invalid_length(0)`, a text observation of more than one character fails with
an `invalid_length` error reporting a length greater than one, and a
one-character text observation behaves exactly like the direct character
observation — succeeding precisely when the character equals the constant. -/
theorem C6_char_text_observation (V : Char) (s : List Char) :
    (s = [] → ConstCharVisitor.visit_str V s
        = .error (.invalidLength 0 (charExpecting V))) ∧
    (1 < s.length → ∃ n, 1 < n ∧ ConstCharVisitor.visit_str V s
        = .error (.invalidLength n (charExpecting V))) ∧
    (∀ c, s = [c] →
        ConstCharVisitor.visit_str V s = ConstCharVisitor.visit_char V c ∧
        (ConstCharVisitor.visit_str V s = .ok () ↔ c = V)) := by
  refine ⟨?_, ?_, ?_⟩
  · rintro rfl
    rfl
  · intro h
    refine ⟨2, by decide, ?_⟩
    cases s with
    | nil => simp at h
    | cons c1 t =>
        cases t with
        | nil => simp at h
        | cons c2 rest => rfl
  · rintro c rfl
    refine ⟨rfl, ?_⟩
    show ConstCharVisitor.visit_char V c = .ok () ↔ c = V
    unfold ConstCharVisitor.visit_char
    split <;> simp_all

theorem C6_witness :
    ConstCharVisitor.visit_str 'x' [] = .error (.invalidLength 0 (charExpecting 'x')) ∧
    (∃ n, 1 < n ∧ ConstCharVisitor.visit_str 'x' ['x', 'y']
        = .error (.invalidLength n (charExpecting 'x'))) ∧
    (ConstCharVisitor.visit_str 'x' ['x'] = .ok () ↔ 'x' = 'x') :=
  ⟨(C6_char_text_observation 'x' []).1 rfl,
   (C6_char_text_observation 'x' ['x', 'y']).2.1 (by decide),
   ((C6_char_text_observation 'x' ['x']).2.2 'x' rfl).2⟩

/-- C7: for a character constant, every text observation with more than one
character is rejected with `invalid_length(2)`, whatever its actual length. -/
theorem C7_invalid_length_always_two (V : Char) (s : List Char) (h : 1 < s.length) :
    ConstCharVisitor.visit_str V s = .error (.invalidLength 2 (charExpecting V)) := by
  cases s with
  | nil => simp at h
  | cons c1 t =>
      cases t with
      | nil => simp at h
      | cons c2 rest => rfl

theorem C7_witness :
    ConstCharVisitor.visit_str 'x' ['a', 'b', 'c', 'd', 'e']
      = .error (.invalidLength 2 (charExpecting 'x')) :=
  C7_invalid_length_always_two 'x' ['a', 'b', 'c', 'd', 'e'] (by decide)

/-- C8: serialization through the never-failing recording sink always
succeeds and emits exactly the single constant value in the wrapper's own
kind — in particular the character family emits the character kind, not a
text value. -/
theorem C8_emitter_single_value :
    (∀ V : Bool, ConstBool.serialize V wireSerializer = .ok (Wire.bool V)) ∧
    (∀ (w : Nat) (V : Int), ConstInt.serialize w V wireSerializer = .ok (Wire.sgn w V)) ∧
    (∀ (w : Nat) (V : Nat), ConstUint.serialize w V wireSerializer = .ok (Wire.uns w V)) ∧
    (∀ V : Char, ConstChar.serialize V wireSerializer = .ok (Wire.char V)) :=
  ⟨fun _ => rfl, fun _ _ => rfl, fun _ _ => rfl, fun _ => rfl⟩

/-- C9: the expecting renderings are the literal value for the boolean and
numeric families and the quoted character for the character family, and the
quoting makes a character expectation textually distinct from every boolean
expectation and from any numeric expectation rendering the same glyph. -/
theorem C9_describer_renderings :
    (∀ V : Bool, boolExpecting V = toString V) ∧
    (∀ V : Int, intExpecting V = toString V) ∧
    (∀ V : Nat, uintExpecting V = toString V) ∧
    (∀ V : Char, charExpecting V = "'" ++ String.singleton V ++ "'") ∧
    (∀ (c : Char) (b : Bool), charExpecting c ≠ boolExpecting b) ∧
    (∀ (c : Char) (n : Int), toString n = String.singleton c →
        charExpecting c ≠ intExpecting n) ∧
    (∀ (c : Char) (n : Nat), toString n = String.singleton c →
        charExpecting c ≠ uintExpecting n) := by
  refine ⟨fun _ => rfl, fun _ => rfl, fun _ => rfl, fun _ => rfl, ?_, ?_, ?_⟩
  · intro c b h
    have h3 : (['\'', c, '\''] : List Char).length = (boolExpecting b).data.length := by
      rw [← charExpecting_data c, h]
    cases b
    · have h4 : (3 : Nat) = (boolExpecting false).data.length := h3
      exact absurd h4 (by decide)
    · have h4 : (3 : Nat) = (boolExpecting true).data.length := h3
      exact absurd h4 (by decide)
  · intro c n h heq
    have h2 : (['\'', c, '\''] : List Char) = (String.singleton c).data := by
      rw [← charExpecting_data c, heq, show intExpecting n = toString n from rfl, h]
    have h5 : (3 : Nat) = 1 := congrArg List.length h2
    exact absurd h5 (by decide)
  · intro c n h heq
    have h2 : (['\'', c, '\''] : List Char) = (String.singleton c).data := by
      rw [← charExpecting_data c, heq, show uintExpecting n = toString n from rfl, h]
    have h5 : (3 : Nat) = 1 := congrArg List.length h2
    exact absurd h5 (by decide)

theorem C9_witness :
    toString (7 : Int) = String.singleton '7' ∧
    toString (7 : Nat) = String.singleton '7' ∧
    charExpecting '7' ≠ intExpecting 7 ∧
    charExpecting '7' ≠ uintExpecting 7 ∧
    charExpecting '7' ≠ boolExpecting true :=
  ⟨by decide, by decide,
   C9_describer_renderings.2.2.2.2.2.1 '7' 7 (by decide),
   C9_describer_renderings.2.2.2.2.2.2 '7' 7 (by decide),
   C9_describer_renderings.2.2.2.2.1 '7' true⟩

/-- C10: boolean validation succeeds exactly when the observed boolean equals
the constant, and on mismatch the error carries the observed boolean. -/
theorem C10_bool_validation (V b : Bool) :
    (ConstBoolVisitor.visit_bool V b = .ok () ↔ b = V) ∧
    (b ≠ V → ConstBoolVisitor.visit_bool V b
        = .error (.invalidValue (.bool b) (boolExpecting V))) := by
  unfold ConstBoolVisitor.visit_bool
  constructor
  · split <;> simp_all
  · intro h
    rw [if_neg h]

theorem C10_witness :
    (ConstBoolVisitor.visit_bool true true = .ok () ↔ true = true) ∧
    ConstBoolVisitor.visit_bool true false
      = .error (.invalidValue (.bool false) (boolExpecting true)) :=
  ⟨(C10_bool_validation true true).1,
   (C10_bool_validation true false).2 (by decide)⟩

end SerdeConstant
